import Mathlib

/-!
Verification of the AI-localisation course-translation pipeline.

The development shallowly embeds the Python modules `translator.py`,
`translate_course.py` and `import_course.py`:

* pure string manipulation (Python `str.replace`, `str.startswith`,
  `str.strip`, `re.sub` on the concrete anchored patterns, `re.findall`
  on the image-tag pattern, `os.path.basename`) is implemented directly
  on `List Char` / `String`;
* external collaborators (the MD5 hex digest from `hashlib`, the OpenAI
  backend, `json.load`, the `slugify` library, the title translator and
  HTTP image fetches) are passed in as explicit function parameters;
* the filesystem is an association list from path to content, and the
  two CLI entry points are modelled as the list of observable actions
  (directory removal, remote calls, file writes, exits) they perform.
-/

/-! ## Python-style string primitives -/

/-- The whitespace characters stripped by Python `str.strip()` (ASCII part). -/
def isPySpace (c : Char) : Bool :=
  c = ' ' || c = '\t' || c = '\n' || c = '\r' || c = '\x0b' || c = '\x0c'

/-- Python `str.strip()`: remove leading and trailing whitespace. -/
def pyStrip (s : String) : String :=
  ⟨((s.data.dropWhile isPySpace).reverse.dropWhile isPySpace).reverse⟩

/-- Python `str.lower()` restricted to ASCII letters (the only case the
code relies on, for the literal prefix check on ASCII text). -/
def pyLower (s : String) : String :=
  ⟨s.data.map (fun c => if 'A' ≤ c && c ≤ 'Z' then Char.ofNat (c.toNat + 32) else c)⟩

/-- Python `str.startswith`. -/
def pyStartsWith (s p : String) : Bool :=
  p.data.isPrefixOf s.data

/-- Python `str.endswith`. -/
def pyEndsWith (s p : String) : Bool :=
  p.data.reverse.isPrefixOf s.data.reverse

/-- Fuel-driven core of Python `str.replace`: replace every non-overlapping
occurrence of `pat` (non-empty in all uses) left to right.  The fuel is the
length of the subject string, which bounds the recursion depth. -/
def replaceFuel : Nat → List Char → List Char → List Char → List Char
  | _, [], _, _ => []
  | 0, s, _, _ => s
  | fuel + 1, c :: rest, pat, rep =>
    if pat ≠ [] && pat.isPrefixOf (c :: rest) then
      rep ++ replaceFuel fuel ((c :: rest).drop pat.length) pat rep
    else
      c :: replaceFuel fuel rest pat rep

/-- Python `s.replace(pat, rep)` (all occurrences, non-overlapping). -/
def pyReplace (s pat rep : String) : String :=
  ⟨replaceFuel s.data.length s.data pat.data rep.data⟩

/-- Python `os.path.basename`: the part after the last slash. -/
def pyBasename (s : String) : String :=
  ⟨(s.data.reverse.takeWhile (fun c => c ≠ '/')).reverse⟩

/-! ## Association-list dictionaries (Python `dict`) -/

/-- Python `d[k] = v` on an association list: overwrite the existing
binding for `k`, or append a fresh one at the end. -/
def dictInsert (k v : String) : List (String × String) → List (String × String)
  | [] => [(k, v)]
  | (k', v') :: rest =>
    if k' = k then (k, v) :: rest else (k', v') :: dictInsert k v rest

theorem lookup_dictInsert (k v q : String) (l : List (String × String)) :
    (dictInsert k v l).lookup q = if q = k then some v else l.lookup q := by
  induction l with
  | nil =>
    by_cases hq : q = k
    · subst hq; simp [dictInsert, List.lookup]
    · simp [dictInsert, List.lookup, beq_eq_false_iff_ne.mpr hq, hq]
  | cons hd tl ih =>
    obtain ⟨k', v'⟩ := hd
    by_cases hk : k' = k
    · subst hk
      by_cases hq : q = k'
      · subst hq; simp [dictInsert, List.lookup]
      · simp [dictInsert, List.lookup, beq_eq_false_iff_ne.mpr hq, hq]
    · by_cases hq' : q = k'
      · subst hq'
        have hqk : ¬q = k := fun h => hk h.symm.symm
        simp [dictInsert, List.lookup, if_neg hk, hqk]
      · simp [dictInsert, List.lookup, if_neg hk,
          beq_eq_false_iff_ne.mpr hq', ih]

/-! ## translator.py — Cache and Translator

The MD5 hex digest (`hashlib.md5(...).hexdigest()`) is an external
library call; the embedding is parametric in the digest function
`h : String → String`.  What the module itself computes is the digest
input string `f"{text}_{target_language}"`. -/

/-- The string fed to the MD5 digest in `Cache.get` / `Cache.set`:
the Python f-string `f"{text}_{target_language}"`. -/
def cache_key_input (text target_language : String) : String :=
  text ++ "_" ++ target_language

/-- `Cache.get`: hash the combination of text and target language and
look the key up in the cache dictionary (`self.cache.get(key)`). -/
def Cache.get (h : String → String) (cache : List (String × String))
    (text target_language : String) : Option String :=
  cache.lookup (h (cache_key_input text target_language))

/-- `Cache.set`: store the translation under the hashed key
(`self.cache[key] = translation`; the synchronous `save_cache` call
persists the returned dictionary). -/
def Cache.set (h : String → String) (cache : List (String × String))
    (text target_language translation : String) : List (String × String) :=
  dictInsert (h (cache_key_input text target_language)) translation cache

/-- `Cache.load_cache`: if the cache file exists, parse it with
`json.load` (whose failure propagates — there is no handler); otherwise
return the empty dictionary.  The file is `Option` content and the JSON
parser is an explicit parameter. -/
def Cache.load_cache (file_content : Option String)
    (json_load : String → Except String (List (String × String))) :
    Except String (List (String × String)) :=
  match file_content with
  | some s => json_load s
  | none => Except.ok []

/-- The strict-words portion of the system prompt:
`', '.join([f"'{word}': '{translation}'" ...])`. -/
def strict_words_prompt (strict_words : List (String × String)) : String :=
  String.intercalate ", "
    (strict_words.map (fun wt => "'" ++ wt.1 ++ "': '" ++ wt.2 ++ "'"))

/-- Post-processing of the raw backend completion:
`translation = response...strip()`, then if
`translation.lower().startswith("text:")` drop that prefix and strip
again. -/
def postprocess_translation (raw : String) : String :=
  let translation := pyStrip raw
  if pyStartsWith (pyLower translation) "text:" then
    pyStrip ⟨translation.data.drop 5⟩
  else
    translation

/-- Result of one `Translator.translate` call: the returned string, the
cache dictionary afterwards, whether the OpenAI backend was called, and
the (system prompt, user prompt) pair of the request when one was made. -/
structure TranslateOutcome where
  translation : String
  cache : List (String × String)
  backend_called : Bool
  request : Option (String × String)
  deriving DecidableEq

/-- `Translator.translate`: with caching requested, look up
`(text, target_language)`; the Python guard `if cached_translation:` is
truthiness, so only a non-`None`, non-empty hit returns early.  On a
miss the backend is called once, the completion is post-processed and,
with caching on, stored in the cache.  The backend response and the
digest function are explicit parameters. -/
def Translator.translate (h : String → String) (text target_language : String)
    (strict_words : List (String × String)) (use_cache : Bool)
    (cache0 : List (String × String)) (backend_response : String)
    (additional_prompt : Option String) : TranslateOutcome :=
  let miss : TranslateOutcome :=
    let system_prompt :=
      "Translate the following text to " ++ target_language ++
      ", ensuring the translation is exact and concise. " ++
      "Only provide the translated text, without any explanations, " ++
      "introductions, or additional phrases. " ++
      "Use the following translations for specific words: " ++
      strict_words_prompt strict_words ++ "."
    let system_prompt :=
      match additional_prompt with
      | some ap => system_prompt ++ " " ++ ap
      | none => system_prompt
    let user_prompt := "Text: " ++ text ++ "\n\nTranslated Text:"
    let translation := postprocess_translation backend_response
    let cache1 :=
      if use_cache then Cache.set h cache0 text target_language translation
      else cache0
    ⟨translation, cache1, true, some (system_prompt, user_prompt)⟩
  match (if use_cache then Cache.get h cache0 text target_language else none) with
  | some cached_translation =>
    if cached_translation ≠ "" then ⟨cached_translation, cache0, false, none⟩
    else miss
  | none => miss

/-! ## Claims C2, C3, C7 -/

/-- C2 counterexample: the cache contains the stored translation `""`
for the pair ("hello", "fr") (digest function instantiated to the
identity; the behaviour is digest-independent), yet `translate` calls
the backend, returns the fresh completion, and rewrites the cache —
the claim required an immediate hit with no backend call and no cache
modification. -/
theorem C2_empty_hit_counterexample :
    Cache.get (fun s => s) [("hello_fr", "")] "hello" "fr" = some "" ∧
    (Translator.translate (fun s => s) "hello" "fr" [] true
        [("hello_fr", "")] "bonjour" none).backend_called = true ∧
    (Translator.translate (fun s => s) "hello" "fr" [] true
        [("hello_fr", "")] "bonjour" none).translation = "bonjour" ∧
    (Translator.translate (fun s => s) "hello" "fr" [] true
        [("hello_fr", "")] "bonjour" none).cache = [("hello_fr", "bonjour")] := by
  refine ⟨rfl, rfl, ?_, ?_⟩ <;> decide

/-- C2 (amended): if caching is enabled and the cache holds a
*non-empty* stored translation for the pair, `translate` returns it
immediately, with no backend call and the cache unchanged.  (An empty
stored translation is falsy in Python and is treated as a miss.) -/
theorem C2_cache_hit_returns_stored (h : String → String)
    (text target_language : String) (strict_words : List (String × String))
    (cache0 : List (String × String)) (backend_response t : String)
    (additional_prompt : Option String)
    (hhit : Cache.get h cache0 text target_language = some t) (hne : t ≠ "") :
    Translator.translate h text target_language strict_words true cache0
      backend_response additional_prompt = ⟨t, cache0, false, none⟩ := by
  unfold Translator.translate
  simp [hhit, hne]

/-- C2 witness: the amended theorem applied at a concrete cache hit. -/
theorem C2_cache_hit_witness :
    Translator.translate (fun s => s) "a" "en" [] true [("a_en", "x")]
      "ignored" none = ⟨"x", [("a_en", "x")], false, none⟩ :=
  C2_cache_hit_returns_stored (fun s => s) "a" "en" [] [("a_en", "x")]
    "ignored" "x" none rfl (by decide)

/-- C3 counterexample: two distinct (text, language) pairs produce the
identical digest-input string "a_b_c", hence the identical MD5 cache
key — the key function is not injective on pairs, because the
underscore separator may occur inside either component. -/
theorem C3_key_collision_counterexample :
    cache_key_input "a_b" "c" = cache_key_input "a" "b_c" ∧
    ("a_b", "c") ≠ (("a", "b_c") : String × String) := by
  constructor <;> decide

theorem String.data_append_eq (a b : String) : (a ++ b).data = a.data ++ b.data := by
  cases a; cases b; rfl

/-- C3 (amended): the cache-key input is deterministic (equal pairs give
equal digest inputs, hence equal MD5 keys), and changing exactly one
component while the other is fixed always changes the digest input —
in particular a single trailing space in the text changes the key.
Full injectivity on pairs fails (see the counterexample). -/
theorem C3_key_deterministic_and_componentwise_injective :
    (∀ t₁ t₂ l₁ l₂ : String, t₁ = t₂ → l₁ = l₂ →
        cache_key_input t₁ l₁ = cache_key_input t₂ l₂) ∧
    (∀ t₁ t₂ l : String, cache_key_input t₁ l = cache_key_input t₂ l → t₁ = t₂) ∧
    (∀ t l₁ l₂ : String, cache_key_input t l₁ = cache_key_input t l₂ → l₁ = l₂) ∧
    cache_key_input "a" "en" ≠ cache_key_input "a " "en" := by
  refine ⟨?_, ?_, ?_, by decide⟩
  · intro t₁ t₂ l₁ l₂ ht hl; rw [ht, hl]
  · intro t₁ t₂ l hk
    unfold cache_key_input at hk
    have hd : t₁.data ++ "_".data ++ l.data = t₂.data ++ "_".data ++ l.data := by
      have h1 := congrArg String.data hk
      simpa [String.data_append_eq, List.append_assoc] using h1
    have h2 : t₁.data ++ "_".data = t₂.data ++ "_".data :=
      List.append_cancel_right hd
    exact String.ext (List.append_cancel_right h2)
  · intro t l₁ l₂ hk
    unfold cache_key_input at hk
    have hd : t.data ++ ("_".data ++ l₁.data) = t.data ++ ("_".data ++ l₂.data) := by
      have h1 := congrArg String.data hk
      simpa [String.data_append_eq, List.append_assoc] using h1
    have h2 := List.append_cancel_left hd
    exact String.ext (List.append_cancel_left h2)

/-- C3 witness: componentwise injectivity applied at a concrete input. -/
theorem C3_key_witness : ("ab" : String) = "ab" :=
  C3_key_deterministic_and_componentwise_injective.2.1 "ab" "ab" "fr" rfl

/-- C7: a missing cache file loads as the empty dictionary for every
parser, and a malformed existing file propagates the parser's error
(there is no handler around `json.load`), never an empty cache. -/
theorem C7_load_cache_missing_vs_malformed :
    (∀ json_load, Cache.load_cache none json_load = Except.ok []) ∧
    (∀ json_load s e, json_load s = Except.error e →
        Cache.load_cache (some s) json_load = Except.error e) := by
  refine ⟨fun _ => rfl, fun json_load s e hp => ?_⟩
  simpa [Cache.load_cache] using hp

/-- C7 witness: the theorem applied to a concrete failing parser. -/
theorem C7_load_cache_witness :
    Cache.load_cache (some "not json") (fun _ => Except.error "parse error")
      = Except.error "parse error" :=
  C7_load_cache_missing_vs_malformed.2 (fun _ => Except.error "parse error")
    "not json" "parse error" rfl

/-! ## translate_course.py — the sync orchestrator

The filesystem is an association list from path to file content; the
translation engine (translator + cache + strict words, irrelevant to
the routing claims) is abstracted as a content-to-content function
`tr`.  A changed file whose source path cannot be opened (the upstream
deletion case) raises in Python; the exception is caught and logged by
`translate_markdown` / `copy_file`, so the filesystem is unchanged for
that entry. -/

/-- The filesystem: a path-to-content association list. -/
abbrev FileTree := List (String × String)

/-- Line 74 of `translate_course.py`:
`new_file_path = file_path.replace('ru/', f'{target_language}/')` —
Python `str.replace` rewrites every occurrence. -/
def new_file_path (file_path target_language : String) : String :=
  pyReplace file_path "ru/" (target_language ++ "/")

/-- The body of the `process_files` loop for one changed path: skip
paths not starting with `ru/`; otherwise translate `.md` files and
byte-copy everything else to the mirrored destination.  A missing
source file raises on `open`, the exception is caught, and the
filesystem is left as it was. -/
def process_one_file (target_language : String) (tr : String → String)
    (fs : FileTree) (file_path : String) : FileTree :=
  if pyStartsWith file_path "ru/" then
    let new_path := new_file_path file_path target_language
    if pyEndsWith file_path ".md" then
      match fs.lookup file_path with
      | some content => dictInsert new_path (tr content) fs
      | none => fs
    else
      match fs.lookup file_path with
      | some content => dictInsert new_path content fs
      | none => fs
  else fs

/-- `process_files`: fold the per-file step over the changed-path set. -/
def process_files (changes : List String) (target_language : String)
    (tr : String → String) (fs : FileTree) : FileTree :=
  changes.foldl (process_one_file target_language tr) fs

theorem process_one_file_preserves (target_language : String)
    (tr : String → String) (fs : FileTree) (p q : String)
    (hv : (fs.lookup q).isSome = true) :
    ((process_one_file target_language tr fs p).lookup q).isSome = true := by
  unfold process_one_file
  by_cases hs : pyStartsWith p "ru/" <;> simp only [hs, if_true, if_false, Bool.false_eq_true, ite_false, ite_true]
  · by_cases he : pyEndsWith p ".md" <;>
      simp only [he, if_true, if_false, Bool.false_eq_true, ite_false, ite_true] <;>
      cases hm : fs.lookup p <;> simp only [] <;>
      first
      | exact hv
      | (rw [lookup_dictInsert]
         by_cases hq : q = new_file_path p target_language <;> simp [hq, hv])
  · exact hv

/-! ## Claims C1, C9 -/

/-- C1 counterexample: the change set contains `ru/a.md`, which is
marked deleted upstream (it is absent from the filesystem), and the
mirrored destination `en/a.md` exists; after running the sync the
destination file still exists with its old content — the orchestrator
never deletes it, contradicting the claimed deletion propagation. -/
theorem C1_no_deletion_counterexample :
    ([("en/a.md", "old")] : FileTree).lookup "ru/a.md" = none ∧
    process_files ["ru/a.md"] "en" (fun s => s) [("en/a.md", "old")]
      = [("en/a.md", "old")] ∧
    (process_files ["ru/a.md"] "en" (fun s => s) [("en/a.md", "old")]).lookup
      "en/a.md" = some "old" := by
  refine ⟨?_, ?_, ?_⟩ <;> decide

/-- C1 (amended): for a changed path whose source file no longer
exists, the per-file work raises, the exception is caught and logged,
and the filesystem is left completely unchanged — the mirrored
destination file is *not* deleted; re-running the sync is likewise a
no-op; and more generally the orchestrator never deletes any existing
file. -/
theorem C1_deleted_source_is_noop :
    (∀ (target_language : String) (tr : String → String) (fs : FileTree)
        (p : String), fs.lookup p = none →
          process_files [p] target_language tr fs = fs) ∧
    (∀ (target_language : String) (tr : String → String) (fs : FileTree)
        (p : String), fs.lookup p = none →
          process_files [p] target_language tr
            (process_files [p] target_language tr fs) = fs) ∧
    (∀ (changes : List String) (target_language : String)
        (tr : String → String) (fs : FileTree) (q : String),
          (fs.lookup q).isSome = true →
            ((process_files changes target_language tr fs).lookup q).isSome
              = true) := by
  have h1 : ∀ (target_language : String) (tr : String → String)
      (fs : FileTree) (p : String), fs.lookup p = none →
        process_files [p] target_language tr fs = fs := by
    intro target_language tr fs p hp
    show process_one_file target_language tr fs p = fs
    unfold process_one_file
    rw [hp]
    split <;> first | rfl | (split <;> rfl)
  refine ⟨h1, fun target_language tr fs p hp => ?_, ?_⟩
  · rw [h1 target_language tr fs p hp]
    exact h1 target_language tr fs p hp
  · intro changes
    induction changes with
    | nil => intro target_language tr fs q hv; simpa [process_files] using hv
    | cons c cs ih =>
      intro target_language tr fs q hv
      show ((process_files cs target_language tr
        (process_one_file target_language tr fs c)).lookup q).isSome = true
      exact ih target_language tr _ q
        (process_one_file_preserves target_language tr fs c q hv)

/-- C1 witness: the amended theorem applied at a concrete deleted
source path. -/
theorem C1_deleted_source_witness :
    process_files ["ru/x.md"] "en" (fun s => s) [("en/x.md", "keep")]
      = [("en/x.md", "keep")] :=
  C1_deleted_source_is_noop.1 "en" (fun s => s) [("en/x.md", "keep")]
    "ru/x.md" (by decide)

/-- C9: the destination path is the source path with *every* occurrence
of "ru/" replaced by the target-language root, not only the leading
component (a directory named `peru` is rewritten too), and paths not
starting with "ru/" are skipped entirely. -/
theorem C9_dest_path_replaces_every_occurrence :
    (∀ (target_language : String) (tr : String → String) (fs : FileTree)
        (p : String), pyStartsWith p "ru/" = false →
          process_one_file target_language tr fs p = fs) ∧
    new_file_path "ru/peru/a.md" "en" = "en/peen/a.md" ∧
    new_file_path "ru/intro/ru/a.md" "en" = "en/intro/en/a.md" ∧
    process_files ["ru/peru/a.md"] "en" (fun s => s) [("ru/peru/a.md", "body")]
      = [("ru/peru/a.md", "body"), ("en/peen/a.md", "body")] := by
  refine ⟨?_, by decide, by decide, by decide⟩
  intro target_language tr fs p hp
  unfold process_one_file
  simp [hp]

/-- C9 witness: the skip branch applied at a concrete non-`ru/` path. -/
theorem C9_skip_witness :
    process_one_file "en" (fun s => s) [] "docs/readme.md" = [] :=
  C9_dest_path_replaces_every_occurrence.1 "en" (fun s => s) []
    "docs/readme.md" (by decide)

/-! ## The two CLI entry points (claim C8)

Each entry point is modelled as the list of observable actions it
performs; the continuation after the modelled prefix is the explicit
parameter `rest`. -/

/-- An observable action of a CLI run. -/
inductive ProgAction where
  | remove_dir (d : String)
  | remote_call (token : Option String) (path : String)
  | file_write (p : String)
  | log_error (msg : String)
  | exit_program (code : Nat)
  deriving DecidableEq

/-- The `__main__` block of `translate_course.py`: after argument
parsing, a missing (or empty, Python falsy) `OPENAI_API_KEY` logs a
critical diagnostic and exits with code 1 before any translator,
git, filesystem or network activity (`rest`). -/
def translate_course_main (argv : List String) (env : String → Option String)
    (rest : List ProgAction) : List ProgAction :=
  if argv.length = 2 ∨ argv.length = 3 then
    match env "OPENAI_API_KEY" with
    | none =>
      [ProgAction.log_error "Error: OPENAI_API_KEY environment variable not set.",
       ProgAction.exit_program 1]
    | some k =>
      if k = "" then
        [ProgAction.log_error "Error: OPENAI_API_KEY environment variable not set.",
         ProgAction.exit_program 1]
      else rest
  else
    [ProgAction.log_error "Usage: python script.py <target_language> [commit_hash]",
     ProgAction.exit_program 1]

/-- `download_course` in `import_course.py`: it unconditionally removes
the `ru` output directory first, then calls the remote course-list
endpoint with whatever session token the environment provided — there
is no credential check anywhere; a missing course logs an error and
returns, and otherwise the run continues with `rest`. -/
def download_course_actions (token : Option String) (course_found : Bool)
    (rest : List ProgAction) : List ProgAction :=
  ProgAction.remove_dir "ru" ::
    ProgAction.remote_call token "courses/courses" ::
      (if course_found then rest
       else [ProgAction.log_error "course not found"])

/-! ## Claim C8 -/

/-- C8 counterexample: with the session token absent, the import entry
point still removes the `ru` directory (a destructive filesystem write)
and issues a remote call carrying no token, and never performs an
immediate credential exit — contradicting the claim that *both* CLI
entry points exit immediately on a missing credential with no partial
run. -/
theorem C8_import_no_credential_check_counterexample :
    download_course_actions none false [] =
      [ProgAction.remove_dir "ru",
       ProgAction.remote_call none "courses/courses",
       ProgAction.log_error "course not found"] ∧
    ProgAction.remove_dir "ru" ∈ download_course_actions none false [] ∧
    ProgAction.exit_program 1 ∉ download_course_actions none false [] := by
  refine ⟨rfl, ?_, ?_⟩ <;> decide

/-- C8 (amended): only the translation entry point treats a missing
API token as a fatal, immediate exit — with a diagnostic and no remote
call or file write beforehand; the import entry point performs no
credential check at all: whatever the token (present or absent), its
first two actions are removing the `ru` directory and a remote call. -/
theorem C8_credential_check_translate_only :
    (∀ (argv : List String) (env : String → Option String)
        (rest : List ProgAction),
        (argv.length = 2 ∨ argv.length = 3) → env "OPENAI_API_KEY" = none →
          translate_course_main argv env rest =
            [ProgAction.log_error
               "Error: OPENAI_API_KEY environment variable not set.",
             ProgAction.exit_program 1]) ∧
    (∀ (token : Option String) (course_found : Bool)
        (rest : List ProgAction),
        (download_course_actions token course_found rest).take 2 =
          [ProgAction.remove_dir "ru",
           ProgAction.remote_call token "courses/courses"]) := by
  refine ⟨?_, fun token course_found rest => rfl⟩
  intro argv env rest hlen henv
  unfold translate_course_main
  rw [if_pos hlen, henv]

/-- C8 witness: the translation entry point's credential exit at a
concrete argument vector and empty environment. -/
theorem C8_credential_exit_witness :
    translate_course_main ["script.py", "de"] (fun _ => none) [] =
      [ProgAction.log_error
         "Error: OPENAI_API_KEY environment variable not set.",
       ProgAction.exit_program 1] :=
  C8_credential_check_translate_only.1 ["script.py", "de"] (fun _ => none) []
    (Or.inl rfl) rfl

/-! ## import_course.py — slug cleaning and the section-tree builder

The title translator (a cached `Translator.translate` call fixed to
English) and the external `slugify` library are abstracted as function
parameters `tr_title` and `slug`. -/

/-- Whether the Python regex `^[0-9]+-*` matches at all: the string
must begin with a decimal digit. -/
def leadingDigit (s : String) : Bool :=
  match s.data with
  | [] => false
  | c :: _ => c.isDigit

/-- `clean_slug`: `re.sub(r'^[0-9]+-*', '', slug)` — when the slug
starts with a digit, remove the maximal leading digit run and then the
maximal run of hyphens following it; otherwise the slug is unchanged. -/
def clean_slug (slug : String) : String :=
  if leadingDigit slug then
    ⟨(slug.data.dropWhile Char.isDigit).dropWhile (fun d => d = '-')⟩
  else slug

/-- One node of the remote course's section list. -/
structure CourseSection where
  id : String
  type : String
  title : String
  deriving DecidableEq

/-- The builder's loop state: the two counters and the current chapter
directory (`chapter_counter`, `section_counter`, `parent_directory`). -/
structure BuildState where
  chapter_counter : Nat
  section_counter : Nat
  parent_directory : String
  deriving DecidableEq

/-- A document written by the builder: the counter values at write
time, the output directory and the Markdown filename. -/
structure DocOutput where
  chapter : Nat
  section_number : Nat
  directory : String
  filename : String
  deriving DecidableEq

/-- Python `f"{n:02d}"` for a natural number. -/
def fmt2 (n : Nat) : String :=
  if n < 10 then "0" ++ toString n else toString n

/-- The chapter directory computed at a chapter boundary: empty for
chapter 1 (flattened root), otherwise the zero-padded chapter number
and the cleaned slug of the translated title. -/
def chapter_directory (tr_title slug : String → String) (chapter : Nat)
    (title : String) : String :=
  if chapter > 1 then fmt2 chapter ++ "-" ++ clean_slug (slug (tr_title title))
  else ""

/-- One iteration of the `download_course` section loop: a HEADER (or
the very first element, `chapter_counter == 0`) starts a new chapter —
increment the chapter counter, reset the section counter, recompute
`parent_directory` (empty for chapter 1, the numbered slug directory
otherwise); a TEXT section then increments the section counter and
produces a document in the current directory. -/
def process_section (tr_title slug : String → String) (st : BuildState)
    (sec : CourseSection) : BuildState × Option DocOutput :=
  let st1 :=
    if sec.type = "HEADER" ∨ st.chapter_counter = 0 then
      BuildState.mk (st.chapter_counter + 1) 0
        (chapter_directory tr_title slug (st.chapter_counter + 1) sec.title)
    else st
  if sec.type = "TEXT" then
    let directory :=
      if st1.parent_directory ≠ "" then "ru/" ++ st1.parent_directory
      else "ru"
    let translated_title := tr_title sec.title
    let section_slug :=
      fmt2 (st1.section_counter + 1) ++ "-" ++
        clean_slug (slug translated_title)
    (BuildState.mk st1.chapter_counter (st1.section_counter + 1)
       st1.parent_directory,
     some (DocOutput.mk st1.chapter_counter (st1.section_counter + 1)
       directory (section_slug ++ ".md")))
  else (st1, none)

/-- The section loop of `download_course`, started from
`chapter_counter = 0, section_counter = 0, parent_directory = ""`,
collecting the documents in order. -/
def download_course_sections (tr_title slug : String → String)
    (secs : List CourseSection) : BuildState × List DocOutput :=
  secs.foldl
    (fun acc sec =>
      let next := process_section tr_title slug acc.1 sec
      (next.1, acc.2 ++ next.2.toList))
    (BuildState.mk 0 0 "", [])

theorem process_section_boundary_notext (f g : String → String)
    (st : BuildState) (sec : CourseSection)
    (h1 : sec.type = "HEADER" ∨ st.chapter_counter = 0)
    (h2 : ¬sec.type = "TEXT") :
    process_section f g st sec =
      (BuildState.mk (st.chapter_counter + 1) 0
        (chapter_directory f g (st.chapter_counter + 1) sec.title), none) := by
  unfold process_section
  rw [if_pos h1, if_neg h2]

theorem process_section_boundary_text (f g : String → String)
    (st : BuildState) (sec : CourseSection)
    (h1 : sec.type = "HEADER" ∨ st.chapter_counter = 0)
    (h2 : sec.type = "TEXT") :
    process_section f g st sec =
      (BuildState.mk (st.chapter_counter + 1) 1
        (chapter_directory f g (st.chapter_counter + 1) sec.title),
       some (DocOutput.mk (st.chapter_counter + 1) 1
        (if chapter_directory f g (st.chapter_counter + 1) sec.title ≠ ""
         then "ru/" ++ chapter_directory f g (st.chapter_counter + 1) sec.title
         else "ru")
        (fmt2 1 ++ "-" ++ clean_slug (g (f sec.title)) ++ ".md"))) := by
  unfold process_section
  rw [if_pos h1, if_pos h2]

theorem process_section_inner_text (f g : String → String)
    (st : BuildState) (sec : CourseSection)
    (h1 : ¬(sec.type = "HEADER" ∨ st.chapter_counter = 0))
    (h2 : sec.type = "TEXT") :
    process_section f g st sec =
      (BuildState.mk st.chapter_counter (st.section_counter + 1)
        st.parent_directory,
       some (DocOutput.mk st.chapter_counter (st.section_counter + 1)
        (if st.parent_directory ≠ "" then "ru/" ++ st.parent_directory
         else "ru")
        (fmt2 (st.section_counter + 1) ++ "-" ++ clean_slug (g (f sec.title))
          ++ ".md"))) := by
  unfold process_section
  rw [if_neg h1, if_pos h2]

theorem process_section_inner_notext (f g : String → String)
    (st : BuildState) (sec : CourseSection)
    (h1 : ¬(sec.type = "HEADER" ∨ st.chapter_counter = 0))
    (h2 : ¬sec.type = "TEXT") :
    process_section f g st sec = (st, none) := by
  unfold process_section
  rw [if_neg h1, if_neg h2]

/-! ## Claims C4, C5, C10 -/

/-- C4: the chapter counter never decreases and is at least 1 after any
element (it is incremented at the first element and at every HEADER);
a HEADER resets the section counter to 0; a TEXT section increments the
section counter by exactly one (from 0 at a fresh chapter boundary);
and the list [TEXT, HEADER, TEXT, TEXT] yields chapter 1 at the tree
root for the first TEXT, then chapter 2 with sections 1 and 2. -/
theorem C4_chapter_section_numbering :
    (∀ (f g : String → String) (st : BuildState) (sec : CourseSection),
        st.chapter_counter ≤ (process_section f g st sec).1.chapter_counter) ∧
    (∀ (f g : String → String) (st : BuildState) (sec : CourseSection),
        1 ≤ (process_section f g st sec).1.chapter_counter) ∧
    (∀ (f g : String → String) (st : BuildState) (sec : CourseSection),
        sec.type = "HEADER" →
          (process_section f g st sec).1.chapter_counter
              = st.chapter_counter + 1 ∧
            (process_section f g st sec).1.section_counter = 0) ∧
    (∀ (f g : String → String) (st : BuildState) (sec : CourseSection),
        sec.type = "TEXT" → st.chapter_counter ≠ 0 →
          (process_section f g st sec).1.chapter_counter
              = st.chapter_counter ∧
            (process_section f g st sec).1.section_counter
              = st.section_counter + 1) ∧
    (∀ (f g : String → String) (st : BuildState) (sec : CourseSection),
        sec.type = "TEXT" → st.chapter_counter = 0 →
          (process_section f g st sec).1.chapter_counter = 1 ∧
            (process_section f g st sec).1.section_counter = 1) ∧
    (download_course_sections (fun s => s) (fun s => s)
        [CourseSection.mk "1" "TEXT" "a", CourseSection.mk "2" "HEADER" "b",
         CourseSection.mk "3" "TEXT" "c", CourseSection.mk "4" "TEXT" "d"]).2
      = [DocOutput.mk 1 1 "ru" "01-a.md",
         DocOutput.mk 2 1 "ru/02-b" "01-c.md",
         DocOutput.mk 2 2 "ru/02-b" "02-d.md"] := by
  refine ⟨?_, ?_, ?_, ?_, ?_, by decide⟩
  · intro f g st sec
    by_cases h1 : sec.type = "HEADER" ∨ st.chapter_counter = 0 <;>
      by_cases h2 : sec.type = "TEXT"
    · rw [process_section_boundary_text f g st sec h1 h2]
      exact Nat.le_succ _
    · rw [process_section_boundary_notext f g st sec h1 h2]
      exact Nat.le_succ _
    · rw [process_section_inner_text f g st sec h1 h2]
    · rw [process_section_inner_notext f g st sec h1 h2]
  · intro f g st sec
    by_cases h1 : sec.type = "HEADER" ∨ st.chapter_counter = 0 <;>
      by_cases h2 : sec.type = "TEXT"
    · rw [process_section_boundary_text f g st sec h1 h2]
      exact Nat.succ_le_succ (Nat.zero_le _)
    · rw [process_section_boundary_notext f g st sec h1 h2]
      exact Nat.succ_le_succ (Nat.zero_le _)
    · rw [process_section_inner_text f g st sec h1 h2]
      push_neg at h1
      show 1 ≤ st.chapter_counter
      omega
    · rw [process_section_inner_notext f g st sec h1 h2]
      push_neg at h1
      show 1 ≤ st.chapter_counter
      omega
  · intro f g st sec hH
    have h2 : ¬sec.type = "TEXT" := by rw [hH]; decide
    rw [process_section_boundary_notext f g st sec (Or.inl hH) h2]
    exact ⟨rfl, rfl⟩
  · intro f g st sec hT hc
    have h1 : ¬(sec.type = "HEADER" ∨ st.chapter_counter = 0) := by
      rintro (h | h)
      · rw [hT] at h; exact absurd h (by decide)
      · exact hc h
    rw [process_section_inner_text f g st sec h1 hT]
    exact ⟨rfl, rfl⟩
  · intro f g st sec hT hc
    rw [process_section_boundary_text f g st sec (Or.inr hc) hT]
    refine ⟨?_, rfl⟩
    show st.chapter_counter + 1 = 1
    omega

/-- C4 witness: the HEADER conjunct applied at a concrete state. -/
theorem C4_header_witness :
    (process_section (fun s => s) (fun s => s) (BuildState.mk 3 2 "02-x")
        (CourseSection.mk "9" "HEADER" "next")).1.chapter_counter = 4 :=
  (C4_chapter_section_numbering.2.2.1 (fun s => s) (fun s => s)
    (BuildState.mk 3 2 "02-x") (CourseSection.mk "9" "HEADER" "next") rfl).1

/-- C5 counterexample: a section of an ignored type ("QUESTION") as the
first element of the list is *not* a no-op — the `chapter_counter == 0`
branch fires and advances the chapter counter from 0 to 1 (and issues a
title translation), contradicting the claim that neither counter
advances even for a first-element ignored section. -/
theorem C5_first_element_counterexample :
    process_section (fun s => s) (fun s => s) (BuildState.mk 0 0 "")
        (CourseSection.mk "s1" "QUESTION" "t")
      = (BuildState.mk 1 0 "", none) ∧
    (process_section (fun s => s) (fun s => s) (BuildState.mk 0 0 "")
        (CourseSection.mk "s1" "QUESTION" "t")).1.chapter_counter ≠ 0 := by
  constructor <;> decide

/-- C5 (amended): a section whose type is neither HEADER nor TEXT
produces no document; anywhere except the first position
(`chapter_counter ≠ 0`) it is a complete no-op — state and directory
unchanged; as the first element it instead advances the chapter
counter to 1, resets the section counter, and sets the (chapter-1,
root) empty parent directory. -/
theorem C5_ignored_type_behaviour :
    (∀ (f g : String → String) (st : BuildState) (sec : CourseSection),
        sec.type ≠ "HEADER" → sec.type ≠ "TEXT" → st.chapter_counter ≠ 0 →
          process_section f g st sec = (st, none)) ∧
    (∀ (f g : String → String) (st : BuildState) (sec : CourseSection),
        sec.type ≠ "HEADER" → sec.type ≠ "TEXT" → st.chapter_counter = 0 →
          process_section f g st sec = (BuildState.mk 1 0 "", none)) := by
  constructor
  · intro f g st sec hH hT hc
    unfold process_section
    simp [hH, hT, hc]
  · intro f g st sec hH hT hc
    unfold process_section
    simp [hH, hT, hc, chapter_directory]

/-- C5 witness: the no-op branch applied at a concrete mid-list state. -/
theorem C5_noop_witness :
    process_section (fun s => s) (fun s => s) (BuildState.mk 3 2 "02-x")
        (CourseSection.mk "s7" "QUESTION" "t") = (BuildState.mk 3 2 "02-x", none) :=
  C5_ignored_type_behaviour.1 (fun s => s) (fun s => s)
    (BuildState.mk 3 2 "02-x") (CourseSection.mk "s7" "QUESTION" "t")
    (by decide) (by decide) (by decide)

/-- C10: `clean_slug` removes a maximal leading digit run together with
all immediately following hyphens, also when no hyphen follows; a
purely numeric slug cleans to the empty string, and a leading year-like
number is stripped as well. -/
theorem C10_clean_slug_strips_leading_number :
    (∀ s : String, (∀ c ∈ s.data, c.isDigit = true) → clean_slug s = "") ∧
    clean_slug "2024" = "" ∧
    clean_slug "42abc" = "abc" ∧
    clean_slug "2024-overview" = "overview" ∧
    clean_slug "3-getting-started" = "getting-started" ∧
    clean_slug "-abc" = "-abc" := by
  refine ⟨?_, by decide, by decide, by decide, by decide, by decide⟩
  intro s hall
  cases hd : s.data with
  | nil =>
    have hs : s = "" := String.ext hd
    rw [hs]
    decide
  | cons c t =>
    have hdig : c.isDigit = true := hall c (by rw [hd]; exact List.mem_cons_self c t)
    have hl : leadingDigit s = true := by
      unfold leadingDigit
      rw [hd]
      exact hdig
    have hdrop : s.data.dropWhile Char.isDigit = [] :=
      List.dropWhile_eq_nil_iff.mpr hall
    unfold clean_slug
    rw [if_pos hl, hdrop]
    decide

/-! ## import_course.py — image localization (claim C6)

`process_images_in_html` scans the raw markup with the regex

  `<img src="(/text/[^"]*)" alt="[^"]*">`

(`re.findall`), then for each captured src path fetches
`base_url + path`; on HTTP 200 it writes the image bytes to
`os.path.join(directory, f"{prefix}-{basename}")` and rewrites every
occurrence of the original path in the markup to the local name
(`html.replace`); on any other status it only logs and leaves the
markup untouched.  The pattern classes `[^"]*` are greedy but
deterministic here (they cannot cross the closing quote), so the scan
below — leftmost match, restart after each match — is the exact
`findall` semantics.  The HTTP layer is the oracle `fetch_ok`. -/

/-- Match the image-tag regex at the head of the input; return the
captured src path and the input remaining after the match. -/
def matchImg (s : List Char) : Option (List Char × List Char) :=
  if "<img src=\"".data.isPrefixOf s then
    let s1 := s.drop 10
    let src := s1.takeWhile (fun c => c ≠ '"')
    let s2 := s1.dropWhile (fun c => c ≠ '"')
    if "/text/".data.isPrefixOf src then
      if "\" alt=\"".data.isPrefixOf s2 then
        let s3 := s2.drop 7
        let s4 := s3.dropWhile (fun c => c ≠ '"')
        if "\">".data.isPrefixOf s4 then some (src, s4.drop 2)
        else none
      else none
    else none
  else none

/-- `re.findall` for the image-tag regex: leftmost, non-overlapping
matches in order.  The fuel (the subject length) bounds the scan. -/
def findImgsFuel : Nat → List Char → List (List Char)
  | 0, _ => []
  | _, [] => []
  | fuel + 1, c :: rest =>
    match matchImg (c :: rest) with
    | some (src, after) => src :: findImgsFuel fuel after
    | none => findImgsFuel fuel rest

/-- `os.path.join` for non-empty relative components. -/
def pyPathJoin (a b : String) : String := a ++ "/" ++ b

/-- The markup after image processing together with the image files
written (as joined destination paths). -/
structure ImageResult where
  html : String
  files : List String
  deriving DecidableEq

/-- `process_images_in_html`: for each matched src path (in match
order), a successful fetch writes `{prefix}-{basename}` into the
directory and replaces every occurrence of the path in the current
markup with that local name; a failed fetch changes nothing. -/
def process_images_in_html (html base_url directory pfx : String)
    (fetch_ok : String → Bool) : ImageResult :=
  let img_tags := findImgsFuel html.data.length html.data
  img_tags.foldl
    (fun acc img_tag =>
      let tag : String := ⟨img_tag⟩
      let new_filename := pfx ++ "-" ++ pyBasename tag
      if fetch_ok (base_url ++ tag) then
        ImageResult.mk (pyReplace acc.html tag new_filename)
          (acc.files ++ [pyPathJoin directory new_filename])
      else acc)
    (ImageResult.mk html [])

/-! ## Claim C6 -/

/-- C6 counterexample: markup containing exactly the claimed reference
`<img src="/text/img1.png">` — with no alt attribute — is returned
unchanged and no file is written even though every fetch succeeds,
because the scraping regex requires an `alt="..."` attribute; the
claimed rewrite to `02-intro-img1.png` never happens. -/
theorem C6_missing_alt_counterexample :
    process_images_in_html "<p><img src=\"/text/img1.png\"></p>"
        "https://aisystant.system-school.ru" "assets" "02-intro"
        (fun _ => true)
      = ImageResult.mk "<p><img src=\"/text/img1.png\"></p>" [] := by
  decide

/-- C6 (amended): for an image tag in the pattern the code actually
scrapes — carrying an alt attribute, `<img src="/text/img1.png"
alt="pic">` — under section prefix "02-intro", a successful fetch
rewrites the reference to the local name `02-intro-img1.png` and writes
a file of that name into the asset directory, while a failed fetch
leaves the original `/text/img1.png` reference untouched and still
returns the complete document. -/
theorem C6_image_localization_with_alt :
    process_images_in_html "<p><img src=\"/text/img1.png\" alt=\"pic\"></p>"
        "https://aisystant.system-school.ru" "assets" "02-intro"
        (fun _ => true)
      = ImageResult.mk "<p><img src=\"02-intro-img1.png\" alt=\"pic\"></p>"
          ["assets/02-intro-img1.png"] ∧
    process_images_in_html "<p><img src=\"/text/img1.png\" alt=\"pic\"></p>"
        "https://aisystant.system-school.ru" "assets" "02-intro"
        (fun _ => false)
      = ImageResult.mk "<p><img src=\"/text/img1.png\" alt=\"pic\"></p>" [] := by
  constructor <;> decide

/-- C10 witness: the all-digits conjunct applied at a concrete
purely numeric slug. -/
theorem C10_all_digits_witness : clean_slug "20240101" = "" :=
  C10_clean_slug_strips_leading_number.1 "20240101" (by decide)
